import Mathlib

/-!
Verification of the google-form-builder input-normalization core.

The Python sources (`google_form_builder/parsers.py`, `models.py`, `app.py`,
`forms_api.py`) are shallowly embedded below.  Strings are modelled through
their character lists (`String.data`), Python `str` methods are re-implemented
on `List Char` restricted to ASCII whitespace, and pydantic-v1 model
construction is modelled as an explicit field-by-field validation pipeline
(`mkQuestion`, `mkFormData`) returning `Except PyErr _`.
-/

set_option maxRecDepth 100000

namespace GFB

/-- Python `str.isspace` characters relevant here (ASCII subset). -/
def isPySpace (c : Char) : Bool :=
  c = ' ' || c = '\t' || c = '\n' || c = '\r' || c = '\x0b' || c = '\x0c'

/-- `str.strip()` on character lists. -/
def stripChars (l : List Char) : List Char :=
  ((l.dropWhile isPySpace).reverse.dropWhile isPySpace).reverse

/-- Python `str.strip()`. -/
def pyStrip (s : String) : String := ⟨stripChars s.data⟩

/-- Python `str.lower()` (ASCII). -/
def pyLower (s : String) : String := ⟨s.data.map Char.toLower⟩

/-- Is `pre` a prefix of `l`? (Python `str.startswith`, list form.) -/
def listPrefix : List Char → List Char → Bool
  | [], _ => true
  | _ :: _, [] => false
  | a :: as, b :: bs => a = b && listPrefix as bs

/-- Is `n` an infix of `l`? (Python `in` for strings.) -/
def listInfix (n : List Char) : List Char → Bool
  | [] => listPrefix n []
  | b :: bs => listPrefix n (b :: bs) || listInfix n bs

/-- Python `needle in hay` for strings. -/
def pyIn (needle hay : String) : Bool := listInfix needle.data hay.data

/-- Python `str.startswith`. -/
def pyStartsWith (s pre : String) : Bool := listPrefix pre.data s.data

/-- Python `str.endswith`. -/
def pyEndsWith (s suf : String) : Bool := listPrefix suf.data.reverse s.data.reverse

/-- Python `s[1:-1]`. -/
def dropFirstLast (s : String) : String := ⟨(s.data.drop 1).dropLast⟩

/-- Python `c in s` for a single character (used for `':' in s`, `'/' in s`). -/
def pyHasChar (s : String) (c : Char) : Bool := s.data.contains c

/-- The `QuestionType` enumeration of `models.py` (its five members). -/
inductive QuestionType
  | short_answer
  | paragraph
  | multiple_choice
  | checkboxes
  | dropdown
deriving DecidableEq, Repr

/-- The `.value` of each `QuestionType` member as declared in `models.py`. -/
def QuestionType.value : QuestionType → String
  | .short_answer => "short answer"
  | .paragraph => "paragraph"
  | .multiple_choice => "multiple choice"
  | .checkboxes => "checkboxes"
  | .dropdown => "dropdown"

/-!
## The Type/Option Tokenizer — `BaseParser._parse_type_and_options`
The character loop of `parsers.py` lines 52-90 is embedded as a step function
on an explicit scanner state, folded over the options blob.
-/

/-- Loop state of the option scanner: `current_option`, `in_quotes`,
`quote_char`, `options` (in that order in the source). -/
structure TokState where
  current : String
  inQuotes : Bool
  quoteChar : Option Char
  options : List String
deriving DecidableEq, Repr

/-- Quote-stripping applied at flush time (`option[1:-1]` when the trimmed
option starts and ends with the same quote character), then a final strip. -/
def postProcessOption (current : String) : String :=
  let option := pyStrip current
  let option :=
    if pyStartsWith option "\"" && pyEndsWith option "\"" then dropFirstLast option
    else if pyStartsWith option "'" && pyEndsWith option "'" then dropFirstLast option
    else option
  pyStrip option

/-- Append `current` to `options` when it is non-blank after strip
(the `if current_option.strip():` guard around both flush sites). -/
def flushInto (options : List String) (current : String) : List String :=
  if pyStrip current ≠ "" then options ++ [postProcessOption current] else options

/-- One iteration of the scanner loop (`parsers.py` lines 57-81). -/
def tokStep (st : TokState) (c : Char) : TokState :=
  if !st.inQuotes && (c = '"' || c = '\'') then
    { st with inQuotes := true, quoteChar := some c }
  else if st.inQuotes && st.quoteChar = some c then
    { st with inQuotes := false, quoteChar := none }
  else if !st.inQuotes && c = ',' then
    { st with options := flushInto st.options st.current, current := "" }
  else
    { st with current := st.current.push c }

/-- Scan a whole options blob and flush the trailing option. -/
def tokenizeOptions (optionsStr : String) : List String :=
  if optionsStr ≠ "" then
    let st := optionsStr.data.foldl tokStep ⟨"", false, none, []⟩
    flushInto st.options st.current
  else []

/-- `BaseParser._parse_type_and_options`. -/
def parse_type_and_options (typeStr : String) : String × List String :=
  if typeStr = "" then (QuestionType.multiple_choice.value, [])
  else
    let t := pyStrip typeStr
    if !pyHasChar t ':' then (t, [])
    else
      let questionType := pyStrip ⟨t.data.takeWhile (· ≠ ':')⟩
      let optionsStr := pyStrip ⟨(t.data.dropWhile (· ≠ ':')).drop 1⟩
      (questionType, tokenizeOptions optionsStr)

/-!
## `models.py` — the `Question` pydantic model

pydantic v1 semantics embedded here:
* fields are validated in declaration order (`question`, `description`,
  `type`, `options`), later validators seeing earlier validated values;
* a field that is absent from the input keeps its declared default and its
  validators are skipped (none is declared `always=True`);
* a field supplied as `None` on an `Optional` type skips type validation but
  still runs the post validators;
* `Config.use_enum_values` makes the enum type-validator return `.value`, so
  `values['type']` is a plain string whenever `type` was supplied — only the
  unvalidated default keeps the enum member itself;
* validators raising `ValueError` produce field errors collected into one
  `ValidationError`; any other exception (`AttributeError`) propagates raw.
-/

/-- The runtime value held in the `type` field: a plain string (after
`use_enum_values` conversion) or an enum member (the unvalidated default). -/
inductive TypeVal
  | str (s : String)
  | enum (e : QuestionType)
deriving DecidableEq, Repr

/-- Python `==` between the stored `type` value and an enum member
(`str`-mixin enums compare equal to their value string). -/
def TypeVal.eqMember : TypeVal → QuestionType → Bool
  | .str s, e => s = e.value
  | .enum e', e => e' = e

/-- Python `==` between the stored `type` value and a string literal. -/
def TypeVal.eqStr : TypeVal → String → Bool
  | .str s, s' => s = s'
  | .enum e, s' => e.value = s'

/-- The membership test `question_type in [MULTIPLE_CHOICE, CHECKBOXES, DROPDOWN]`. -/
def TypeVal.isChoice (t : TypeVal) : Bool :=
  t.eqMember .multiple_choice || t.eqMember .checkboxes || t.eqMember .dropdown

/-- Exceptions escaping model construction / parsing.  `rowError`,
`missingColumns` and `noValidQuestions` carry the structured payload of the
corresponding `ValueError` messages in `parsers.py`. -/
inductive PyErr
  | validationError (msgs : List String)
  | attributeError (msg : String)
  | valueError (msg : String)
  | rowError (row : Nat) (cause : PyErr)
  | missingColumns (missing : List String)
  | noValidQuestions
deriving DecidableEq, Repr

/-- A validated `Question` (fields as stored on the pydantic model). -/
structure Question where
  question : String
  description : String
  type : TypeVal
  options : Option (List String)
deriving DecidableEq, Repr

/-- Raw keyword arguments to `Question(...)`: outer `none` = field absent,
inner `none` = field explicitly supplied as Python `None`. -/
structure RawQuestion where
  question : Option String := none
  description : Option (Option String) := none
  type : Option String := none
  options : Option (Option (List String)) := none

/-- `Question.normalize_type` (`models.py` lines 41-69): strip + lower, alias
table, verbatim enum-value match, silent `multiple_choice` fallback. -/
def normalize_type (v : String) : QuestionType :=
  let v := pyLower (pyStrip v)
  if v = "text" then .short_answer
  else if v = "short_answer" then .short_answer
  else if v = "long_answer" then .paragraph
  else if v = "textarea" then .paragraph
  else if v = "radio" then .multiple_choice
  else if v = "select" then .dropdown
  else if v = "checkbox" then .checkboxes
  else if v = "multi_select" then .checkboxes
  else if v = QuestionType.short_answer.value then .short_answer
  else if v = QuestionType.paragraph.value then .paragraph
  else if v = QuestionType.multiple_choice.value then .multiple_choice
  else if v = QuestionType.checkboxes.value then .checkboxes
  else if v = QuestionType.dropdown.value then .dropdown
  else .multiple_choice

/-- Outcome of one validator application under pydantic v1: a value, a field
error (collected), or an uncaught exception (aborts construction). -/
inductive VResult (α : Type)
  | ok (a : α)
  | fieldError (msg : String)
  | abort (e : PyErr)
deriving DecidableEq, Repr

/-- Evaluating `f'{question_type.value} questions ...'`: on the string form of
the type (the `use_enum_values` case) the `.value` access raises
`AttributeError`; only the unvalidated enum default formats the message. -/
def needOptionError (t : TypeVal) (suffix : String) : VResult (Option (List String)) :=
  match t with
  | .enum e => .fieldError (e.value ++ " questions must have at least one " ++ suffix)
  | .str _ => .abort (.attributeError "'str' object has no attribute 'value'")

/-- `Question.validate_options` (`models.py` lines 71-92) applied to the
already-validated `type` value and the supplied `options` value. -/
def validate_options (questionType : TypeVal) (v : Option (List String)) :
    VResult (Option (List String)) :=
  if questionType.isChoice then
    match v with
    | none => needOptionError questionType "option"
    | some opts =>
      if opts = [] then needOptionError questionType "option"
      else
        let cleaned := opts.filterMap fun o =>
          if pyStrip o ≠ "" then some (pyStrip o) else none
        if cleaned = [] then needOptionError questionType "valid option"
        else .ok (some cleaned)
  else .ok none

/-- Construction of `Question(**raw)` under pydantic v1 (see the module note
above for the embedded semantics). -/
def mkQuestion (raw : RawQuestion) : Except PyErr Question :=
  -- field `question`: required, `min_length=1`, then `question_must_not_be_empty`
  let qRes : VResult String :=
    match raw.question with
    | none => .fieldError "field required"
    | some q =>
      if q = "" then .fieldError "ensure this value has at least 1 characters"
      else if pyStrip q = "" then .fieldError "Question cannot be empty"
      else .ok (pyStrip q)
  -- field `description`: default "", `clean_description`
  let descVal : String :=
    match raw.description with
    | none => ""
    | some none => ""
    | some (some d) => pyStrip d
  -- field `type`: default enum member; supplied strings go through
  -- `normalize_type` then the enum validator, which under `use_enum_values`
  -- stores the member's `.value` string
  let typeVal : TypeVal :=
    match raw.type with
    | none => .enum .multiple_choice
    | some s => .str (normalize_type s).value
  -- field `options`: default `None` with validator skipped; supplied values
  -- (including explicit `None`) run `validate_options`
  let optRes : VResult (Option (List String)) :=
    match raw.options with
    | none => .ok none
    | some v => validate_options typeVal v
  match optRes with
  | .abort e => .error e
  | .fieldError optMsg =>
    match qRes with
    | .fieldError qMsg => .error (.validationError [qMsg, optMsg])
    | _ => .error (.validationError [optMsg])
  | .ok optVal =>
    match qRes with
    | .fieldError qMsg => .error (.validationError [qMsg])
    | .abort e => .error e
    | .ok qVal => .ok ⟨qVal, descVal, typeVal, optVal⟩

/-- A validated `FormData`. -/
structure FormData where
  title : String
  description : String
  questions : List Question
deriving DecidableEq, Repr

/-- `FormData(title=..., questions=...)` as built by the parsers: `clean_title`
strips a truthy title and defaults an empty one, `min_items=1` and
`validate_questions` reject an empty question list. -/
def mkFormData (title : String) (questions : List Question) : Except PyErr FormData :=
  let t := if title = "" then "Untitled Form" else pyStrip title
  if questions = [] then .error (.validationError ["ensure this value has at least 1 items"])
  else .ok ⟨t, "", questions⟩

/-!
## `CSVParser._parse_dataframe` (`parsers.py` lines 162-205)

A dataframe is a header plus rows of already-stringified cells (`str(...)`
applied by the source, so a pandas `NaN` cell appears as the string `"nan"`).
-/

/-- Header + rows table. -/
structure DataFrame where
  columns : List String
  rows : List (List String)

/-- Index of the first column with the given (normalized) name. -/
def colIndex : List String → String → Option Nat
  | [], _ => none
  | c :: cs, col => if c = col then some 0 else (colIndex cs col).map (· + 1)

/-- `row[col]` against the normalized header. -/
def cellAt (cols : List String) (row : List String) (col : String) : String :=
  match colIndex cols col with
  | some i => row.getD i ""
  | none => ""

/-- `df.columns.str.strip().str.lower()`. -/
def normCols (df : DataFrame) : List String :=
  df.columns.map fun c => pyLower (pyStrip c)

/-- The `required_cols` set, in declaration order. -/
def requiredCols : List String := ["question", "type"]

/-- The skip guard: question cell blank after strip or the `nan` sentinel. -/
def skipRow (cols : List String) (row : List String) : Bool :=
  let q := pyStrip (cellAt cols row "question")
  q = "" || pyLower q = "nan"

/-- Body of the per-row `try:` block for a non-skipped row (`parsers.py`
lines 182-196): optional description column with its own `nan` sentinel, the
tokenizer on the type cell, then `Question(...)` with `options=options if
options else None`. -/
def buildRow (cols : List String) (row : List String) : Except PyErr Question :=
  let questionText := pyStrip (cellAt cols row "question")
  let description :=
    if cols.contains "description" then
      let desc := pyStrip (cellAt cols row "description")
      if pyLower desc ≠ "nan" then desc else ""
    else ""
  let typeStr := pyStrip (cellAt cols row "type")
  let parsed := parse_type_and_options typeStr
  mkQuestion
    { question := some questionText
      description := some (some description)
      type := some parsed.1
      options := some (if parsed.2 ≠ [] then some parsed.2 else none) }

/-- The `for idx, row in df.iterrows()` loop: skip, build, wrap any failure
into the 1-based row error, fail fast. -/
def parseRows (cols : List String) : List (List String) → Nat → Except PyErr (List Question)
  | [], _ => .ok []
  | row :: rest, idx =>
    if skipRow cols row then parseRows cols rest (idx + 1)
    else
      match buildRow cols row with
      | .error e => .error (.rowError (idx + 1) e)
      | .ok q => (parseRows cols rest (idx + 1)).map (q :: ·)

/-- `CSVParser._parse_dataframe`. -/
def parse_dataframe (df : DataFrame) (title : String) : Except PyErr FormData :=
  let cols := normCols df
  let missing := requiredCols.filter fun c => !cols.contains c
  if missing ≠ [] then .error (.missingColumns missing)
  else
    match parseRows cols df.rows 0 with
    | .error e => .error e
    | .ok questions =>
      if questions = [] then .error .noValidQuestions
      else mkFormData title questions

/-!
## `FormBuilder.detect_input_type` (`app.py` lines 39-75)

The filesystem is a map from path to file content (`none` = file absent).
-/

/-- Final path component (pathlib `Path(...).name`, trailing separators
dropped). -/
def lastComponent (s : String) : String :=
  ⟨((s.data.reverse.dropWhile (· = '/')).takeWhile (· ≠ '/')).reverse⟩

/-- pathlib `Path(source).suffix`: from the last `.` of the final component,
provided that dot is neither its first nor its last character. -/
def pathSuffix (source : String) : String :=
  let name := (lastComponent source).data
  if name.contains '.' then
    let afterDot := (name.reverse.takeWhile (· ≠ '.')).length
    let i := name.length - 1 - afterDot
    if 0 < i ∧ afterDot > 0 then ⟨name.drop i⟩ else ""
  else ""

/-- `FormBuilder.detect_input_type`. -/
def detect_input_type (fs : String → Option String) (source : String) : String :=
  if (pyIn "docs.google.com" source && pyIn "spreadsheets" source) ||
      (source.length > 20 && !pyHasChar source '/') then "sheets"
  else
    match fs source with
    | some content =>
      let ext := pyLower (pathSuffix source)
      if ext = ".json" then "json"
      else if ext = ".csv" then "csv"
      else
        let c := pyStrip content
        if pyStartsWith c "[" || pyStartsWith c "\x7b" then "json"
        else if pyHasChar c ',' then "csv"
        else "json"
    | none => "json"

/-!
## `GoogleFormsAPI._create_question_request` / `_add_questions`
(`forms_api.py` lines 252-368)

`QuestionType.SECTION` in the source is an attribute access on the enum class;
`questionTypeAttr` models `Enum.__getattr__` over the five members declared in
`models.py`, returning `none` (= `AttributeError`) for any other name.
-/

/-- Attribute lookup on the `QuestionType` enum class by member name. -/
def questionTypeAttr (name : String) : Option QuestionType :=
  if name = "SHORT_ANSWER" then some .short_answer
  else if name = "PARAGRAPH" then some .paragraph
  else if name = "MULTIPLE_CHOICE" then some .multiple_choice
  else if name = "CHECKBOXES" then some .checkboxes
  else if name = "DROPDOWN" then some .dropdown
  else none

/-- The per-item payload shapes producible by `_create_question_request`. -/
inductive ItemPayload
  | pageBreakItem
  | textItem
  | textQuestion (paragraph : Option Bool)
  | choiceQuestion (ctype : String) (options : List String)
  | emptyQuestionItem
deriving DecidableEq, Repr

/-- One `createItem` request: item title, description, payload, and the
0-based `location.index`. -/
structure CreateItemRequest where
  title : String
  description : String
  payload : ItemPayload
  index : Nat
deriving DecidableEq, Repr

/-- `GoogleFormsAPI._create_question_request`. -/
def create_question_request (q : Question) (index : Nat) :
    Except PyErr CreateItemRequest :=
  match questionTypeAttr "SECTION" with
  | none => .error (.attributeError "SECTION")
  | some sec =>
    if q.type.eqMember sec then .ok ⟨q.question, q.description, .pageBreakItem, index⟩
    else
      match questionTypeAttr "TITLE" with
      | none => .error (.attributeError "TITLE")
      | some ttl =>
        if q.type.eqMember ttl then .ok ⟨q.question, q.description, .textItem, index⟩
        else if q.type.eqMember .short_answer then
          .ok ⟨q.question, q.description, .textQuestion none, index⟩
        else if q.type.eqMember .paragraph then
          .ok ⟨q.question, q.description, .textQuestion (some true), index⟩
        else if q.type.eqMember .multiple_choice then
          .ok ⟨q.question, q.description, .choiceQuestion "RADIO" (q.options.getD []), index⟩
        else if q.type.eqMember .checkboxes then
          .ok ⟨q.question, q.description, .choiceQuestion "CHECKBOX" (q.options.getD []), index⟩
        else if q.type.eqMember .dropdown then
          .ok ⟨q.question, q.description, .choiceQuestion "DROP_DOWN" (q.options.getD []), index⟩
        else .ok ⟨q.question, q.description, .emptyQuestionItem, index⟩

/-- The `for i, question in enumerate(questions)` loop of `_add_questions`. -/
def build_question_requests : List Question → Nat → Except PyErr (List CreateItemRequest)
  | [], _ => .ok []
  | q :: rest, i =>
    match create_question_request q i with
    | .error e => .error e
    | .ok r => (build_question_requests rest (i + 1)).map (r :: ·)

/-- The `"info"` body of `forms().create` in `create_form` (no folder
arguments): title falls back to `"Untitled Form"` only when empty. -/
structure FormShell where
  title : String
  description : String
deriving DecidableEq, Repr

/-- The create-form-shell operation plus the ordered `createItem` batch. -/
def build_requests (fd : FormData) : Except PyErr (FormShell × List CreateItemRequest) :=
  let formTitle :=
    if fd.title = "" || fd.title = "Untitled Form" then
      if fd.title ≠ "" then fd.title else "Untitled Form"
    else fd.title
  (build_question_requests fd.questions 0).map (⟨formTitle, fd.description⟩, ·)

/-!
## `FormBuilder.validate_input` (`app.py` lines 143-198)

`validate_input` wraps the whole body in `try/except Exception`, so it is a
total function of the outcome of `parse_input`; the embedding takes that
outcome (`Except PyErr FormData`) as its argument.
-/

/-- `str(e)` for the exceptions of this development. -/
def PyErr.message : PyErr → String
  | .validationError msgs => String.intercalate "; " msgs
  | .attributeError m => m
  | .valueError m => m
  | .rowError n cause => "Error parsing row " ++ toString n ++ ": " ++ cause.message
  | .missingColumns missing =>
      "Missing required columns: " ++ String.intercalate ", " missing
  | .noValidQuestions => "No valid questions found in the data"

/-- The dictionary returned by `validate_input`; `none` marks keys absent from
the failure dictionary. -/
structure ValidationReport where
  valid : Bool
  error : Option String
  title : Option String
  description : Option String
  question_count : Nat
  question_types : List (TypeVal × Nat)
  warnings : List String
  questions : List Question
deriving DecidableEq, Repr

/-- `question_types[qtype] = question_types.get(qtype, 0) + 1` on an
insertion-ordered association list (Python dict). -/
def bumpCount : List (TypeVal × Nat) → TypeVal → List (TypeVal × Nat)
  | [], t => [(t, 1)]
  | (k, n) :: rest, t =>
    if k = t then (k, n + 1) :: rest else (k, n) :: bumpCount rest t

/-- The per-type counting loop of `validate_input`. -/
def countTypes (qs : List Question) : List (TypeVal × Nat) :=
  qs.foldl (fun acc q => bumpCount acc q.type) []

/-- The warning loop: choice-typed questions with falsy or empty options. -/
def questionWarnings (qs : List Question) : List String :=
  qs.filterMap fun q =>
    if (q.type.eqStr "multiple choice" || q.type.eqStr "checkboxes" ||
        q.type.eqStr "dropdown") && (q.options.getD []).isEmpty then
      some ("Question '" ++ q.question ++ "' needs options")
    else none

/-- `FormBuilder.validate_input`, as a function of the `parse_input` outcome. -/
def validate_input (parseResult : Except PyErr FormData) : ValidationReport :=
  match parseResult with
  | .ok fd =>
    { valid := true
      error := none
      title := some fd.title
      description := some fd.description
      question_count := fd.questions.length
      question_types := countTypes fd.questions
      warnings := questionWarnings fd.questions
      questions := fd.questions }
  | .error e =>
    { valid := false
      error := some e.message
      title := none
      description := none
      question_count := 0
      question_types := []
      warnings := []
      questions := [] }

/-!
## Spec-side definition for the normalization refinement claim
-/

/-- The §4.2 `type_raw` contract written from the SPEC's words: case-insensitive
alias table, then canonical enum values verbatim, then the silent
`multiple_choice` fallback.  Compared against `normalize_type` (from the
source) in the C5 theorem. -/
def spec_normalize_type (raw : String) : QuestionType :=
  let v := pyLower (pyStrip raw)
  if v = "text" then .short_answer
  else if v = "short_answer" then .short_answer
  else if v = "long_answer" then .paragraph
  else if v = "textarea" then .paragraph
  else if v = "radio" then .multiple_choice
  else if v = "select" then .dropdown
  else if v = "checkbox" then .checkboxes
  else if v = "multi_select" then .checkboxes
  else if v = "short answer" then .short_answer
  else if v = "paragraph" then .paragraph
  else if v = "multiple choice" then .multiple_choice
  else if v = "checkboxes" then .checkboxes
  else if v = "dropdown" then .dropdown
  else .multiple_choice

/-- Extraction of the successfully built question of a row (used to state the
row-filtering theorem; rows covered by its hypothesis are all `.ok`). -/
def rowQuestion (cols : List String) (row : List String) : Question :=
  match buildRow cols row with
  | .ok q => q
  | .error _ => ⟨"", "", .enum .multiple_choice, none⟩

/-!
## Helper lemmas
-/

/-- Characters of the stripped string come from the original string. -/
theorem mem_stripChars {c : Char} {l : List Char} (h : c ∈ stripChars l) : c ∈ l := by
  unfold stripChars at h
  rw [List.mem_reverse] at h
  have h1 := List.dropWhile_subset _ h
  rw [List.mem_reverse] at h1
  exact List.dropWhile_subset _ h1

/-- Stripping cannot introduce a character. -/
theorem pyHasChar_strip_false {s : String} {c : Char} (h : pyHasChar s c = false) :
    pyHasChar (pyStrip s) c = false := by
  have hmem : c ∉ s.data := by
    intro hc
    rw [pyHasChar, List.contains, List.elem_eq_mem, decide_eq_false_iff_not] at h
    exact h hc
  rw [pyHasChar, pyStrip, List.contains, List.elem_eq_mem, decide_eq_false_iff_not]
  intro hc
  exact hmem (mem_stripChars hc)

/-!
## Claim theorems
-/

/-- C1: the claim states that the Request Builder turns every validated
FormDocument into one create-form-shell operation followed by per-question
`createItem` operations (`textQuestion` / `choiceQuestion` per canonical type).
In the frozen source `_create_question_request` begins by evaluating
`QuestionType.SECTION`, an attribute the enum of `models.py` does not declare,
so every call — and hence the whole batch for any document — raises
`AttributeError` instead of producing the claimed operations. -/
theorem C1_request_builder_always_raises :
    (∀ (q : Question) (i : Nat),
        create_question_request q i = .error (.attributeError "SECTION")) ∧
    build_requests ⟨"Survey", "",
        [⟨"What is your name?", "", .str "short answer", none⟩]⟩ =
      .error (.attributeError "SECTION") :=
  ⟨fun _ _ => rfl, rfl⟩

/-- C2: the claim states that a choice-typed `Question` fails with a
`ValidationError` naming the type whenever options are absent, `None`, empty,
or blank-only.  On the frozen source: an absent `options` field skips the
validator entirely — the model is built with `options=None`, breaking the
claimed invariant — and a supplied `None`/empty/blank-only value raises
`AttributeError` (the `use_enum_values` config makes `values['type']` a plain
string, so `question_type.value` in the error f-string fails) rather than the
claimed `ValidationError` naming the type. -/
theorem C2_options_validation_divergence :
    mkQuestion { question := some "Pick one", type := some "multiple choice" } =
      .ok ⟨"Pick one", "", .str "multiple choice", none⟩ ∧
    (TypeVal.str "multiple choice").isChoice = true ∧
    mkQuestion { question := some "Pick one", type := some "multiple choice",
                 options := some (some []) } =
      .error (.attributeError "'str' object has no attribute 'value'") ∧
    mkQuestion { question := some "Pick one", type := some "multiple choice",
                 options := some none } =
      .error (.attributeError "'str' object has no attribute 'value'") ∧
    mkQuestion { question := some "Pick one", type := some "multiple choice",
                 options := some (some ["   "]) } =
      .error (.attributeError "'str' object has no attribute 'value'") :=
  ⟨rfl, rfl, rfl, rfl, rfl⟩

/-- C4 counterexample: the claim states that a quote character embedded
mid-value is preserved in the returned option.  On input `t: a"b` the embedded
double quote toggles the scanner's quote state and is consumed, so the
returned option is `ab`, not `a"b`. -/
theorem C4_midvalue_quote_counterexample :
    parse_type_and_options "t: a\"b" = ("t", ["ab"]) ∧ ("ab" : String) ≠ "a\"b" :=
  ⟨by decide, by decide⟩

/-- C5: the Question Normalizer trims and lower-cases the raw type string,
applies the alias table (text/short_answer → short answer, long_answer/textarea
→ paragraph, radio → multiple choice, select → dropdown, checkbox/multi_select
→ checkboxes), then matches canonical enum values verbatim, and maps every
remaining string to multiple_choice without error: `normalize_type` (from the
source) coincides with `spec_normalize_type` (from the spec's words) on every
input, and a couple of fallback inputs are exhibited. -/
theorem C5_normalize_type_refines_spec :
    (∀ s : String, normalize_type s = spec_normalize_type s) ∧
    normalize_type " Radio " = .multiple_choice ∧
    normalize_type "unrecognized-type!" = .multiple_choice ∧
    normalize_type "TEXT" = .short_answer :=
  ⟨fun _ => rfl, by decide, by decide, by decide⟩

/-- C9: the tokenizer returns the canonical multiple-choice value with no
options on empty input; any non-empty input without a `:` yields the whole
trimmed string as type name and no options; in particular
`parse_type_and_options "short answer" = ("short answer", [])`. -/
theorem C9_tokenizer_defaults :
    parse_type_and_options "" = (QuestionType.multiple_choice.value, []) ∧
    (∀ s : String, s ≠ "" → pyHasChar s ':' = false →
        parse_type_and_options s = (pyStrip s, [])) ∧
    parse_type_and_options "short answer" = ("short answer", []) := by
  refine ⟨by decide, ?_, by decide⟩
  intro s hne hcolon
  have h2 : pyHasChar (pyStrip s) ':' = false := pyHasChar_strip_false hcolon
  simp [parse_type_and_options, hne, h2]

/-- C9 witness: the no-colon branch instantiated at `"short answer"`. -/
theorem C9_tokenizer_defaults_witness :
    ("short answer" : String) ≠ "" ∧ pyHasChar "short answer" ':' = false ∧
    parse_type_and_options "short answer" = (pyStrip "short answer", []) :=
  ⟨by decide, by decide,
    C9_tokenizer_defaults.2.1 "short answer" (by decide) (by decide)⟩

/-- C10: `validate_input` is a total function of the parse outcome — it never
raises; every failure produces the dictionary with `valid=False`, the error
message string, `question_count=0` and empty collections, and every success
produces `valid=True` with `question_count` equal to the number of parsed
questions. -/
theorem C10_validate_input_total :
    (∀ e : PyErr, validate_input (.error e) =
        { valid := false, error := some e.message, title := none,
          description := none, question_count := 0, question_types := [],
          warnings := [], questions := [] }) ∧
    (∀ fd : FormData, (validate_input (.ok fd)).valid = true ∧
        (validate_input (.ok fd)).error = none ∧
        (validate_input (.ok fd)).question_count = fd.questions.length) :=
  ⟨fun _ => rfl, fun _ => ⟨rfl, rfl, rfl⟩⟩

/-- C3: the tokenizer splits `checkboxes: "New York, NY", "Los Angeles, CA"`
into `("checkboxes", ["New York, NY", "Los Angeles, CA"])`; in general a comma
scanned inside a quoted region (quote character `"` or `'`) is accumulated
into the current option instead of terminating it, a comma outside quotes
flushes the current option and resets the buffer, and after the scan the
trailing (non-blank) option is flushed as the last option. -/
theorem C3_tokenizer_comma_handling :
    parse_type_and_options "checkboxes: \"New York, NY\", \"Los Angeles, CA\"" =
      ("checkboxes", ["New York, NY", "Los Angeles, CA"]) ∧
    (∀ st : TokState, st.inQuotes = true →
        (st.quoteChar = some '"' ∨ st.quoteChar = some '\'') →
        (tokStep st ',').current = st.current.push ',' ∧
        (tokStep st ',').options = st.options) ∧
    (∀ st : TokState, st.inQuotes = false →
        tokStep st ',' = { st with options := flushInto st.options st.current,
                                   current := "" }) ∧
    (∀ s : String, s ≠ "" →
        pyStrip (s.data.foldl tokStep ⟨"", false, none, []⟩).current ≠ "" →
        tokenizeOptions s =
          (s.data.foldl tokStep ⟨"", false, none, []⟩).options ++
            [postProcessOption (s.data.foldl tokStep ⟨"", false, none, []⟩).current]) := by
  refine ⟨by decide, ?_, ?_, ?_⟩
  · intro st h hq
    have hqc : (st.quoteChar = some ',') = False := by
      rcases hq with hq | hq <;> simp [hq]
    constructor <;> simp [tokStep, h, hqc]
  · intro st h
    simp [tokStep, h]
  · intro s hne hcur
    simp [tokenizeOptions, flushInto, hne, hcur]

/-- C3 witness: the quoted-comma step, the unquoted-comma step and the
trailing flush instantiated at concrete scanner states and input. -/
theorem C3_tokenizer_comma_handling_witness :
    (tokStep ⟨"New York", true, some '"', []⟩ ',').current = "New York".push ',' ∧
    (tokStep ⟨"Apple", false, none, ["Pear"]⟩ ',') =
      ⟨"", false, none, ["Pear", "Apple"]⟩ ∧
    tokenizeOptions "a, b" = ("a, b".data.foldl tokStep ⟨"", false, none, []⟩).options ++
      [postProcessOption ("a, b".data.foldl tokStep ⟨"", false, none, []⟩).current] :=
  ⟨(C3_tokenizer_comma_handling.2.1 ⟨"New York", true, some '"', []⟩ rfl (Or.inl rfl)).1,
   by rw [C3_tokenizer_comma_handling.2.2.1 ⟨"Apple", false, none, ["Pear"]⟩ rfl]; decide,
   C3_tokenizer_comma_handling.2.2.2 "a, b" (by decide) (by decide)⟩

/-- C4 amended: quote characters that toggle the scanner's quote state (an
opening quote outside quotes, or the closing quote matching the pending one)
are consumed and never appear in the option text; a quote character is kept
mid-value exactly when it occurs inside a region quoted by the other quote
character; the flush step strips a surrounding pair of identical quote
characters only when they exactly bound the whole trimmed accumulated option
(illustrated: `'a"b'` keeps its inner quote, `'"hello"'` has the bounding
double quotes stripped). -/
theorem C4_quote_consumption_amended :
    (∀ (st : TokState) (c : Char), st.inQuotes = false → (c = '"' ∨ c = '\'') →
        (tokStep st c).current = st.current ∧ (tokStep st c).inQuotes = true) ∧
    (∀ (st : TokState) (c : Char), st.inQuotes = true → st.quoteChar = some c →
        (tokStep st c).current = st.current ∧ (tokStep st c).inQuotes = false) ∧
    (∀ (st : TokState) (c q : Char), st.inQuotes = true → st.quoteChar = some q →
        c ≠ q → (tokStep st c).current = st.current.push c) ∧
    parse_type_and_options "t: 'a\"b'" = ("t", ["a\"b"]) ∧
    parse_type_and_options "t: '\"hello\"'" = ("t", ["hello"]) := by
  refine ⟨?_, ?_, ?_, by decide, by decide⟩
  · intro st c h hc
    have hb : (!st.inQuotes && (c = '"' || c = '\'')) = true := by
      rcases hc with hc | hc <;> simp [h, hc]
    constructor <;> simp [tokStep, hb]
  · intro st c h hq
    constructor <;> simp [tokStep, h, hq]
  · intro st c q h hq hne
    have hqc : (st.quoteChar = some c) = False := by
      simp [hq]
      intro h'
      exact hne h'.symm
    simp [tokStep, h, hqc]

/-- C4 amended witness: the three step facts at concrete states and the two
concrete tokenizer evaluations. -/
theorem C4_quote_consumption_amended_witness :
    (tokStep ⟨"ab", false, none, []⟩ '"').current = "ab" ∧
    (tokStep ⟨"ab", true, some '\'', []⟩ '\'').current = "ab" ∧
    (tokStep ⟨"a", true, some '\'', []⟩ '"').current = "a".push '"' :=
  ⟨(C4_quote_consumption_amended.1 ⟨"ab", false, none, []⟩ '"' rfl (Or.inl rfl)).1,
   (C4_quote_consumption_amended.2.1 ⟨"ab", true, some '\'', []⟩ '\'' rfl rfl).1,
   C4_quote_consumption_amended.2.2.1 ⟨"a", true, some '\'', []⟩ '"' '\'' rfl rfl
     (by decide)⟩

instance {ε α : Type} [DecidableEq ε] [DecidableEq α] : DecidableEq (Except ε α) :=
  fun a b =>
    match a, b with
    | .ok x, .ok y => decidable_of_iff (x = y) (by simp)
    | .error e, .error f => decidable_of_iff (e = f) (by simp)
    | .ok _, .error _ => isFalse (by simp)
    | .error _, .ok _ => isFalse (by simp)

/-- The row loop skips exactly the sentinel rows and keeps the built questions
of the remaining rows, in order, whenever those all build successfully. -/
theorem parseRows_filter (cols : List String) (rows : List (List String)) :
    ∀ idx : Nat,
      (∀ r ∈ rows.filter (fun r => !skipRow cols r),
          buildRow cols r = .ok (rowQuestion cols r)) →
      parseRows cols rows idx =
        .ok ((rows.filter (fun r => !skipRow cols r)).map (rowQuestion cols)) := by
  induction rows with
  | nil => intro idx _; rfl
  | cons row rest ih =>
    intro idx h
    cases hs : skipRow cols row with
    | true =>
      have hfilter : (row :: rest).filter (fun r => !skipRow cols r) =
          rest.filter (fun r => !skipRow cols r) := by
        simp [List.filter_cons, hs]
      rw [hfilter] at h ⊢
      simp only [parseRows, hs, if_true]
      exact ih (idx + 1) h
    | false =>
      have hfilter : (row :: rest).filter (fun r => !skipRow cols r) =
          row :: rest.filter (fun r => !skipRow cols r) := by
        simp [List.filter_cons, hs]
      rw [hfilter] at h ⊢
      have hrow := h row (List.mem_cons_self _ _)
      simp only [parseRows, hs, hrow]
      rw [ih (idx + 1) fun r hr => h r (List.mem_cons_of_mem _ hr)]
      rfl

/-- C6: with the required columns present, rows whose question cell is blank
after strip or the `nan` sentinel contribute nothing and cause no error — the
parsed document holds exactly the questions built from the non-skipped rows in
order — and when every row is skipped the parse fails with the
no-valid-questions error. -/
theorem C6_row_skipping (df : DataFrame) (title : String)
    (hcols : (requiredCols.filter fun c => !(normCols df).contains c) = []) :
    ((∀ r ∈ df.rows.filter (fun r => !skipRow (normCols df) r),
        buildRow (normCols df) r = .ok (rowQuestion (normCols df) r)) →
      df.rows.filter (fun r => !skipRow (normCols df) r) ≠ [] →
      parse_dataframe df title =
        .ok ⟨if title = "" then "Untitled Form" else pyStrip title, "",
          (df.rows.filter (fun r => !skipRow (normCols df) r)).map
            (rowQuestion (normCols df))⟩) ∧
    (df.rows.filter (fun r => !skipRow (normCols df) r) = [] →
      parse_dataframe df title = .error .noValidQuestions) := by
  constructor
  · intro hok hne
    have hrows := parseRows_filter (normCols df) df.rows 0 hok
    have hne' : (df.rows.filter fun r => !skipRow (normCols df) r).map
        (rowQuestion (normCols df)) ≠ [] := by
      rw [ne_eq, List.map_eq_nil_iff]
      exact hne
    simp only [parse_dataframe, hcols, hrows]
    rw [if_neg (fun hfalse => hfalse rfl), if_neg hne']
    simp only [mkFormData]
    rw [if_neg hne']
  · intro hskip
    have hrows := parseRows_filter (normCols df) df.rows 0
      (by rw [hskip]; intro r hr; cases hr)
    rw [hskip] at hrows
    simp only [parse_dataframe, hcols, hrows]
    rw [if_neg (fun hfalse => hfalse rfl)]
    simp

/-- C6 witness: a table whose blank and `nan` rows are skipped while the two
remaining rows survive in order, and a table whose only row is skipped. -/
theorem C6_row_skipping_witness :
    parse_dataframe ⟨["Question", "Type"],
        [["   ", "short answer"], ["nan", "x"], ["Name?", "short answer"],
         ["Pick", "multiple choice: A, B"]]⟩ "Form from quiz" =
      .ok ⟨"Form from quiz", "",
        [⟨"Name?", "", .str "short answer", none⟩,
         ⟨"Pick", "", .str "multiple choice", some ["A", "B"]⟩]⟩ ∧
    parse_dataframe ⟨["Question", "Type"], [["nan", "x"]]⟩ "T" =
      .error .noValidQuestions := by
  constructor
  · rw [(C6_row_skipping ⟨["Question", "Type"],
        [["   ", "short answer"], ["nan", "x"], ["Name?", "short answer"],
         ["Pick", "multiple choice: A, B"]]⟩ "Form from quiz" (by decide)).1
      (by decide) (by decide)]
    decide
  · exact (C6_row_skipping ⟨["Question", "Type"], [["nan", "x"]]⟩ "T"
      (by decide)).2 (by decide)

/-- C7: header names are trimmed and lower-cased before matching, and a table
missing any of the required `question`/`type` columns fails with the
missing-columns error carrying exactly the missing names; a header without a
`type` column in particular reports `type`. -/
theorem C7_missing_columns (df : DataFrame) (title : String)
    (h : ¬ ∀ c ∈ requiredCols, (normCols df).contains c = true) :
    parse_dataframe df title =
      .error (.missingColumns (requiredCols.filter fun c => !(normCols df).contains c)) ∧
    (requiredCols.filter fun c => !(normCols df).contains c) ≠ [] ∧
    ((normCols df).contains "type" = false →
      "type" ∈ requiredCols.filter fun c => !(normCols df).contains c) := by
  have hmiss : (requiredCols.filter fun c => !(normCols df).contains c) ≠ [] := by
    intro h0
    apply h
    intro c hc
    have hc' := List.filter_eq_nil_iff.mp h0 c hc
    simpa using hc'
  refine ⟨?_, hmiss, ?_⟩
  · simp only [parse_dataframe]
    rw [if_pos hmiss]
  · intro htype
    rw [List.mem_filter]
    exact ⟨by decide, by rw [Bool.not_eq_true']; exact htype⟩

/-- C7 witness: a header with `Question`/`Description` but no `type` column
fails naming exactly `type`. -/
theorem C7_missing_columns_witness :
    parse_dataframe ⟨[" Question ", "Description"], [["Q1", "d"]]⟩ "T" =
      .error (.missingColumns ["type"]) := by
  rw [(C7_missing_columns ⟨[" Question ", "Description"], [["Q1", "d"]]⟩ "T"
    (by decide)).1]
  decide

/-- C8: with no forced hint, an identifier containing both the spreadsheet
host token and the `spreadsheets` substring routes to the remote-spreadsheet
path, as does any identifier longer than 20 characters without `/` (e.g. any
25-character slash-free string); otherwise an existing local file dispatches
on extension (`.json` → JSON, `.csv` → tabular), any other extension peeks at
content (leading `[` or `{` → JSON, else a comma → tabular, else JSON), and
every remaining case defaults to the JSON path. -/
theorem C8_source_router :
    (∀ (fs : String → Option String) (s : String),
        pyIn "docs.google.com" s = true → pyIn "spreadsheets" s = true →
        detect_input_type fs s = "sheets") ∧
    (∀ (fs : String → Option String) (s : String),
        s.length > 20 → pyHasChar s '/' = false →
        detect_input_type fs s = "sheets") ∧
    (∀ (fs : String → Option String) (s : String),
        s.length = 25 → pyHasChar s '/' = false →
        detect_input_type fs s = "sheets") ∧
    (∀ (fs : String → Option String) (s content : String),
        ((pyIn "docs.google.com" s && pyIn "spreadsheets" s) ||
          (s.length > 20 && !pyHasChar s '/')) = false →
        fs s = some content →
        (pyLower (pathSuffix s) = ".json" → detect_input_type fs s = "json") ∧
        (pyLower (pathSuffix s) = ".csv" → detect_input_type fs s = "csv") ∧
        (pyLower (pathSuffix s) ≠ ".json" → pyLower (pathSuffix s) ≠ ".csv" →
          ((pyStartsWith (pyStrip content) "[" ||
              pyStartsWith (pyStrip content) "\x7b") = true →
            detect_input_type fs s = "json") ∧
          ((pyStartsWith (pyStrip content) "[" ||
              pyStartsWith (pyStrip content) "\x7b") = false →
            pyHasChar (pyStrip content) ',' = true →
            detect_input_type fs s = "csv") ∧
          ((pyStartsWith (pyStrip content) "[" ||
              pyStartsWith (pyStrip content) "\x7b") = false →
            pyHasChar (pyStrip content) ',' = false →
            detect_input_type fs s = "json"))) ∧
    (∀ (fs : String → Option String) (s : String),
        ((pyIn "docs.google.com" s && pyIn "spreadsheets" s) ||
          (s.length > 20 && !pyHasChar s '/')) = false →
        fs s = none → detect_input_type fs s = "json") := by
  refine ⟨?_, ?_, ?_, ?_, ?_⟩
  · intro fs s h1 h2
    simp [detect_input_type, h1, h2]
  · intro fs s h1 h2
    simp [detect_input_type, h1, h2]
  · intro fs s h1 h2
    have h1' : s.length > 20 := by omega
    simp [detect_input_type, h1', h2]
  · intro fs s content hnr hfs
    refine ⟨?_, ?_, ?_⟩
    · intro hext
      simp [detect_input_type, hnr, hfs, hext]
    · intro hext
      simp [detect_input_type, hnr, hfs, hext]
    · intro hj hc
      refine ⟨?_, ?_, ?_⟩
      · intro hbr
        simp [detect_input_type, hnr, hfs, hj, hc, hbr]
      · intro hbr hcomma
        simp [detect_input_type, hnr, hfs, hj, hc, hbr, hcomma]
      · intro hbr hcomma
        simp [detect_input_type, hnr, hfs, hj, hc, hbr, hcomma]
  · intro fs s hnr hfs
    simp [detect_input_type, hnr, hfs]

/-- C8 witness: each routing branch at a concrete identifier and filesystem. -/
theorem C8_source_router_witness :
    detect_input_type (fun _ => none)
      "https://docs.google.com/spreadsheets/d/abc" = "sheets" ∧
    detect_input_type (fun _ => none) "abcdefghijklmnopqrstuvwxy" = "sheets" ∧
    detect_input_type
      (fun p => if p = "q.json" then some "x" else none) "q.json" = "json" ∧
    detect_input_type
      (fun p => if p = "q.csv" then some "x" else none) "q.csv" = "csv" ∧
    detect_input_type
      (fun p => if p = "data.unknown" then some "  \x7b\"a\": 1\x7d" else none)
      "data.unknown" = "json" ∧
    detect_input_type
      (fun p => if p = "table.txt" then some "a,b,c" else none) "table.txt" = "csv" ∧
    detect_input_type (fun _ => none) "plain" = "json" :=
  ⟨C8_source_router.1 _ _ (by decide) (by decide),
   C8_source_router.2.1 _ _ (by decide) (by decide),
   (C8_source_router.2.2.2.1 _ "q.json" "x" (by decide) (by decide)).1 (by decide),
   (C8_source_router.2.2.2.1 _ "q.csv" "x" (by decide) (by decide)).2.1 (by decide),
   ((C8_source_router.2.2.2.1 _ "data.unknown" "  \x7b\"a\": 1\x7d" (by decide)
      (by decide)).2.2 (by decide) (by decide)).1 (by decide),
   ((C8_source_router.2.2.2.1 _ "table.txt" "a,b,c" (by decide)
      (by decide)).2.2 (by decide) (by decide)).2.1 (by decide) (by decide),
   C8_source_router.2.2.2.2 _ "plain" (by decide) rfl⟩

end GFB
